import Mathlib

/-!
Shallow embedding of the core computations of `Financial.py`
(edwineldho/Financial-Model) and proofs about them.

Conventions of the embedding:
* pandas/float series become `List ℚ`; Python float arithmetic is modelled
  exactly over `ℚ`;
* Python's negative index `series[-1]` becomes `List.getLast?`;
* every operation that can raise in Python (`IndexError` on an empty
  sequence, `ZeroDivisionError` on a zero float denominator) is modelled by
  an `Option` result, `none` standing for the raised exception;
* `dcf_valuation` and `sensitivity_analysis` read the module-level global
  `income_statement` (it is not one of their parameters in the source); that
  global is passed here as an explicit extra argument so that the dependence
  is visible.
-/

namespace Financial

/-- The income-statement table: the four columns `Financial.py` reads from it
(`income_statement['Gross Profit']`, `['Operating Income']`, `['Net Income']`,
`['Total Revenue']`), each a series ordered oldest to newest. -/
structure IncomeStatement where
  gross_profit : List ℚ
  operating_income : List ℚ
  net_income : List ℚ
  total_revenue : List ℚ
  deriving DecidableEq, Repr

/-- The balance-sheet table: the two columns `calculate_ratios` reads. -/
structure BalanceSheet where
  total_liabilities : List ℚ
  total_stockholder_equity : List ℚ
  deriving DecidableEq, Repr

/-- The cash-flow table: the one column `dcf_valuation` and
`sensitivity_analysis` read (`cash_flow['Free Cash Flow']`). -/
structure CashFlow where
  free_cash_flow : List ℚ
  deriving DecidableEq, Repr

/-- The dictionary returned by `calculate_ratios` (lines 27-32). -/
structure RatioSet where
  gross_margin : List ℚ
  operating_margin : List ℚ
  net_profit_margin : List ℚ
  debt_to_equity : List ℚ
  deriving DecidableEq, Repr

/-- `calculate_ratios` (lines 21-32): element-wise pandas division of aligned
series. -/
def calculate_ratios (income_statement : IncomeStatement)
    (balance_sheet : BalanceSheet) : RatioSet :=
  { gross_margin :=
      List.zipWith (fun a b => a / b) income_statement.gross_profit
        income_statement.total_revenue
    operating_margin :=
      List.zipWith (fun a b => a / b) income_statement.operating_income
        income_statement.total_revenue
    net_profit_margin :=
      List.zipWith (fun a b => a / b) income_statement.net_income
        income_statement.total_revenue
    debt_to_equity :=
      List.zipWith (fun a b => a / b) balance_sheet.total_liabilities
        balance_sheet.total_stockholder_equity }

/-- `project_financials` (lines 35-40).  `net_profit_margin[-1]` is evaluated
inside the second list comprehension, so an empty margin series only raises
when `revenue_projections` is non-empty. -/
def project_financials (income_statement : IncomeStatement)
    (net_profit_margin : List ℚ) (growth_rate : ℚ) (years : ℕ) :
    Option (List ℚ × List ℚ) :=
  match income_statement.total_revenue.getLast? with
  | none => none
  | some initial_revenue =>
    let revenue_projections :=
      (List.range years).map fun i => initial_revenue * (1 + growth_rate) ^ i
    match revenue_projections, net_profit_margin.getLast? with
    | [], _ => some ([], [])
    | _, none => none
    | revs, some m => some (revs, revs.map fun rev => rev * m)

/-- `dcf_valuation` (lines 43-56).  Line 44 reads
`income_statement['Net Income'][-1]` from the module global
`income_statement`, passed here explicitly.  The `none` branches are, in
source order: empty `Free Cash Flow` or `Net Income` column (`IndexError`),
zero last net income (`ZeroDivisionError` computing the ratio), empty
projection list (`IndexError` at `free_cash_flow_projections[-1]`),
`discount_rate = terminal_growth_rate` (`ZeroDivisionError` at the terminal
value), and `discount_rate = -1` (`ZeroDivisionError` while discounting). -/
def dcf_valuation (net_income_projections : List ℚ) (cash_flow : CashFlow)
    (income_statement : IncomeStatement) (discount_rate : ℚ)
    (terminal_growth_rate : ℚ) : Option ℚ :=
  match cash_flow.free_cash_flow.getLast?,
      income_statement.net_income.getLast? with
  | some cfLast, some niLast =>
    if niLast = 0 then none
    else
      let fcf_to_net_income_ratio := cfLast / niLast
      let free_cash_flow_projections :=
        net_income_projections.map fun ni => ni * fcf_to_net_income_ratio
      match free_cash_flow_projections.getLast? with
      | none => none
      | some fcfLast =>
        if discount_rate - terminal_growth_rate = 0 then none
        else
          let terminal_value :=
            fcfLast * (1 + terminal_growth_rate) /
              (discount_rate - terminal_growth_rate)
          if 1 + discount_rate = 0 then none
          else
            let discounted_fcf :=
              free_cash_flow_projections.enum.map fun p =>
                p.2 / (1 + discount_rate) ^ (p.1 + 1)
            let discounted_terminal_value :=
              terminal_value /
                (1 + discount_rate) ^ free_cash_flow_projections.length
            some (discounted_fcf.sum + discounted_terminal_value)
  | _, _ => none

/-- The body of the `for rate in discount_rates` loop of
`sensitivity_analysis` (lines 65-69), accumulating `results` in order.
A rate equal to `-1` raises `ZeroDivisionError` while discounting (the
projection list is non-empty whenever this loop is reached). -/
def sensitivity_loop (free_cash_flow_projections : List ℚ)
    (terminal_value : ℚ) : List ℚ → Option (List (ℚ × ℚ))
  | [] => some []
  | rate :: rest =>
    if 1 + rate = 0 then none
    else
      let discounted_fcf :=
        free_cash_flow_projections.enum.map fun p =>
          p.2 / (1 + rate) ^ (p.1 + 1)
      let discounted_terminal_value :=
        terminal_value / (1 + rate) ^ free_cash_flow_projections.length
      let enterprise_value := discounted_fcf.sum + discounted_terminal_value
      match sensitivity_loop free_cash_flow_projections terminal_value rest with
      | none => none
      | some results => some ((rate, enterprise_value) :: results)

/-- `sensitivity_analysis` (lines 59-71).  Line 61 reads the module global
`income_statement`, passed here explicitly.  Line 63 sizes the terminal value
once, with `discount_rates[0]` (`IndexError` when the rate sequence is
empty); the loop then only re-discounts. -/
def sensitivity_analysis (net_income_projections : List ℚ)
    (cash_flow : CashFlow) (income_statement : IncomeStatement)
    (discount_rates : List ℚ) (terminal_growth_rate : ℚ) :
    Option (List (ℚ × ℚ)) :=
  match cash_flow.free_cash_flow.getLast?,
      income_statement.net_income.getLast? with
  | some cfLast, some niLast =>
    if niLast = 0 then none
    else
      let fcf_to_net_income_ratio := cfLast / niLast
      let free_cash_flow_projections :=
        net_income_projections.map fun ni => ni * fcf_to_net_income_ratio
      match free_cash_flow_projections.getLast?, discount_rates.head? with
      | some fcfLast, some r0 =>
        if r0 - terminal_growth_rate = 0 then none
        else
          let terminal_value :=
            fcfLast * (1 + terminal_growth_rate) / (r0 - terminal_growth_rate)
          sensitivity_loop free_cash_flow_projections terminal_value
            discount_rates
      | _, _ => none
  | _, _ => none

example :
    project_financials ⟨[], [], [], [800, 1000]⟩ [3/10, 1/5] (1/10) 3 =
      some ([1000, 1100, 1210], [200, 220, 242]) := by
  norm_num [project_financials, List.range_succ]

example :
    dcf_valuation [200] ⟨[100]⟩ ⟨[], [], [100], []⟩ (1/10) (1/50) =
      some 2500 := by
  norm_num [dcf_valuation, List.enum]

/-! ### Helper lemmas -/

lemma sum_enumFrom_map (f : ℕ → ℚ → ℚ) :
    ∀ (l : List ℚ) (k : ℕ),
      ((List.enumFrom k l).map fun p => f p.1 p.2).sum =
        ∑ i in Finset.range l.length, f (k + i) (l.getD i 0)
  | [], k => by simp
  | a :: t, k => by
    have ih := sum_enumFrom_map f t (k + 1)
    rw [show List.enumFrom k (a :: t) = (k, a) :: List.enumFrom (k + 1) t
      from rfl]
    rw [List.map_cons, List.sum_cons, ih, List.length_cons]
    rw [Finset.sum_range_succ'
      (fun i => f (k + i) ((a :: t).getD i 0)) t.length]
    simp only [List.getD_cons_succ, List.getD_cons_zero, Nat.add_zero]
    rw [add_comm]
    congr 1
    refine Finset.sum_congr rfl fun i _ => ?_
    have h : k + 1 + i = k + (i + 1) := by omega
    rw [h]

lemma sum_enum_map (f : ℕ → ℚ → ℚ) (l : List ℚ) :
    ((l.enum).map fun p => f p.1 p.2).sum =
      ∑ i in Finset.range l.length, f i (l.getD i 0) := by
  have h := sum_enumFrom_map f l 0
  simpa using h

lemma getD_map_of_lt {α β : Type*} (g : α → β) (d : α) (e : β) :
    ∀ (l : List α) (i : ℕ), i < l.length → (l.map g).getD i e = g (l.getD i d)
  | [], i, h => by simp at h
  | a :: t, 0, _ => by simp
  | a :: t, i + 1, h => by
    simp only [List.map_cons, List.getD_cons_succ]
    exact getD_map_of_lt g d e t i (by simpa using h)

lemma getD_range_of_lt (n i : ℕ) (h : i < n) : (List.range n).getD i 0 = i := by
  rw [List.getD_eq_getElem?_getD, List.getElem?_range h]
  rfl

lemma getD_zipWith_of_lt (f : ℚ → ℚ → ℚ) :
    ∀ (l1 l2 : List ℚ) (i : ℕ), i < l1.length → i < l2.length →
      (List.zipWith f l1 l2).getD i 0 = f (l1.getD i 0) (l2.getD i 0)
  | [], _, i, h1, _ => by simp at h1
  | _ :: _, [], i, _, h2 => by simp at h2
  | a :: t1, b :: t2, 0, _, _ => by simp
  | a :: t1, b :: t2, i + 1, h1, h2 => by
    simp only [List.zipWith_cons_cons, List.getD_cons_succ]
    exact getD_zipWith_of_lt f t1 t2 i (by simpa using h1) (by simpa using h2)

lemma getD_mem_of_lt : ∀ (l : List ℚ) (i : ℕ), i < l.length → l.getD i 0 ∈ l
  | [], i, h => by simp at h
  | a :: t, 0, _ => by simp
  | a :: t, i + 1, h => by
    simp only [List.getD_cons_succ]
    exact List.mem_cons_of_mem a (getD_mem_of_lt t i (by simpa using h))

/-- Closed form of `dcf_valuation` on the inputs where the source does not
raise: the enterprise value is the sum of the per-period discounted free cash
flows plus the discounted terminal value, the free cash flows being the
net-income projections scaled by the last-period FCF/NI ratio. -/
lemma dcf_valuation_eq_sum (ni : List ℚ) (cf : CashFlow)
    (ist : IncomeStatement) (cfLast niLast r g : ℚ)
    (hcf : cf.free_cash_flow.getLast? = some cfLast)
    (hni : ist.net_income.getLast? = some niLast)
    (hniz : niLast ≠ 0) (hne : ni ≠ [])
    (hrg : r - g ≠ 0) (hr : 1 + r ≠ 0) :
    dcf_valuation ni cf ist r g =
      some ((∑ i in Finset.range ni.length,
              ni.getD i 0 * (cfLast / niLast) / (1 + r) ^ (i + 1)) +
            ni.getLast hne * (cfLast / niLast) * (1 + g) / (r - g) /
              (1 + r) ^ ni.length) := by
  have hlast : (ni.map fun x => x * (cfLast / niLast)).getLast? =
      some (ni.getLast hne * (cfLast / niLast)) := by
    rw [List.getLast?_map, List.getLast?_eq_getLast ni hne]
    rfl
  simp only [dcf_valuation, hcf, hni, if_neg hniz, hlast, if_neg hrg, if_neg hr,
    List.length_map]
  rw [sum_enum_map (fun i x => x / (1 + r) ^ (i + 1))
    (ni.map fun x => x * (cfLast / niLast))]
  simp only [List.length_map]
  congr 2
  · refine Finset.sum_congr rfl fun i hi => ?_
    rw [getD_map_of_lt _ 0 0 ni i (Finset.mem_range.mp hi)]

/-- The sensitivity loop succeeds exactly when no rate equals `-1`, and then
returns, in input order, one pair per rate, discounting the fixed cash flows
and the fixed terminal value at that rate. -/
lemma sensitivity_loop_eq (fcfs : List ℚ) (tv : ℚ) :
    ∀ (rates : List ℚ), (∀ r ∈ rates, 1 + r ≠ 0) →
      sensitivity_loop fcfs tv rates =
        some (rates.map fun rate =>
          (rate, ((fcfs.enum).map fun p => p.2 / (1 + rate) ^ (p.1 + 1)).sum +
            tv / (1 + rate) ^ fcfs.length))
  | [], _ => rfl
  | rate :: rest, h => by
    have hr : 1 + rate ≠ 0 := h rate (List.mem_cons_self rate rest)
    have ih := sensitivity_loop_eq fcfs tv rest
      (fun r hmem => h r (List.mem_cons_of_mem rate hmem))
    simp only [sensitivity_loop, if_neg hr, ih, List.map_cons]

/-- Closed form of `sensitivity_analysis` on the inputs where the source does
not raise: one pair per rate in input order; each enterprise value discounts
the shared free-cash-flow projections at its own rate but uses the terminal
value sized by the FIRST rate `r0` of the sequence. -/
lemma sensitivity_analysis_eq_sum (ni : List ℚ) (cf : CashFlow)
    (ist : IncomeStatement) (cfLast niLast r0 g : ℚ) (rates : List ℚ)
    (hcf : cf.free_cash_flow.getLast? = some cfLast)
    (hni : ist.net_income.getLast? = some niLast)
    (hniz : niLast ≠ 0) (hne : ni ≠ [])
    (hr0 : rates.head? = some r0) (hr0g : r0 - g ≠ 0)
    (hrates : ∀ r ∈ rates, 1 + r ≠ 0) :
    sensitivity_analysis ni cf ist rates g =
      some (rates.map fun rate =>
        (rate,
          (∑ i in Finset.range ni.length,
            ni.getD i 0 * (cfLast / niLast) / (1 + rate) ^ (i + 1)) +
          ni.getLast hne * (cfLast / niLast) * (1 + g) / (r0 - g) /
            (1 + rate) ^ ni.length)) := by
  have hlast : (ni.map fun x => x * (cfLast / niLast)).getLast? =
      some (ni.getLast hne * (cfLast / niLast)) := by
    rw [List.getLast?_map, List.getLast?_eq_getLast ni hne]
    rfl
  simp only [sensitivity_analysis, hcf, hni, if_neg hniz, hlast, hr0,
    if_neg hr0g]
  rw [sensitivity_loop_eq _ _ rates hrates]
  congr 1
  refine List.map_congr_left fun rate _ => ?_
  rw [sum_enum_map (fun i x => x / (1 + rate) ^ (i + 1))
    (ni.map fun x => x * (cfLast / niLast))]
  simp only [List.length_map]
  congr 2
  refine Finset.sum_congr rfl fun i hi => ?_
  rw [getD_map_of_lt _ 0 0 ni i (Finset.mem_range.mp hi)]

/-- Core monotonicity fact: with strictly positive projected free cash flows
(`x * q` with `x` ranging over the net-income projections) and a terminal
growth rate above `-1`, the enterprise-value expression strictly decreases
when the discount rate grows within the domain `g < r`. -/
lemma ev_sum_strict_anti (ni : List ℚ) (q g r1 r2 : ℚ) (hne : ni ≠ [])
    (hpos : ∀ x ∈ ni, 0 < x * q) (hg : -1 < g) (hgr : g < r1) (hr : r1 < r2) :
    (∑ i in Finset.range ni.length,
        ni.getD i 0 * q / (1 + r2) ^ (i + 1)) +
      ni.getLast hne * q * (1 + g) / (r2 - g) / (1 + r2) ^ ni.length <
    (∑ i in Finset.range ni.length,
        ni.getD i 0 * q / (1 + r1) ^ (i + 1)) +
      ni.getLast hne * q * (1 + g) / (r1 - g) / (1 + r1) ^ ni.length := by
  have h1pos : (0 : ℚ) < 1 + r1 := by linarith
  have h12 : 1 + r1 < 1 + r2 := by linarith
  have hlen : ni.length ≠ 0 := fun h => hne (List.length_eq_zero.mp h)
  have hsum :
      (∑ i in Finset.range ni.length,
          ni.getD i 0 * q / (1 + r2) ^ (i + 1)) <
        ∑ i in Finset.range ni.length,
          ni.getD i 0 * q / (1 + r1) ^ (i + 1) := by
    refine Finset.sum_lt_sum_of_nonempty
      (Finset.nonempty_range_iff.mpr hlen) fun i hi => ?_
    have hx : 0 < ni.getD i 0 * q :=
      hpos _ (getD_mem_of_lt ni i (Finset.mem_range.mp hi))
    exact div_lt_div_of_pos_left hx (pow_pos h1pos (i + 1))
      (pow_lt_pow_left₀ h12 h1pos.le (Nat.succ_ne_zero i))
  have htv :
      ni.getLast hne * q * (1 + g) / (r2 - g) / (1 + r2) ^ ni.length <
        ni.getLast hne * q * (1 + g) / (r1 - g) / (1 + r1) ^ ni.length := by
    have hA : 0 < ni.getLast hne * q * (1 + g) :=
      mul_pos (hpos _ (List.getLast_mem hne)) (by linarith)
    have hd1 : 0 < (r1 - g) * (1 + r1) ^ ni.length :=
      mul_pos (by linarith) (pow_pos h1pos _)
    have hdlt : (r1 - g) * (1 + r1) ^ ni.length <
        (r2 - g) * (1 + r2) ^ ni.length :=
      mul_lt_mul'' (by linarith) (pow_lt_pow_left₀ h12 h1pos.le hlen)
        (by linarith) (pow_pos h1pos _).le
    rw [div_div, div_div]
    exact div_lt_div_of_pos_left hA hd1 hdlt
  exact add_lt_add hsum htv

/-! ### Claims -/

/-- Claim C1: for every non-empty `net_income_projections`, every FCF/NI
ratio (realised in the source as `cfLast / niLast` with `niLast ≠ 0`), every
`terminal_growth_rate`, and every `discount_rate` above it (and different
from `-1`, where the source raises `ZeroDivisionError` instead of
returning), `dcf_valuation` returns
`(∑ i, fcf i / (1+discount_rate)^(i+1)) + terminal_value /
(1+discount_rate)^n`, where `fcf i = net_income_projections i * ratio` and
`terminal_value = fcf (n-1) * (1+terminal_growth_rate) /
(discount_rate - terminal_growth_rate)`: the first projected period is
discounted by one full period. -/
theorem C1_dcf_valuation_formula (ni : List ℚ) (cf : CashFlow)
    (ist : IncomeStatement) (cfLast niLast r g : ℚ)
    (hcf : cf.free_cash_flow.getLast? = some cfLast)
    (hni : ist.net_income.getLast? = some niLast)
    (hniz : niLast ≠ 0) (hne : ni ≠ [])
    (hgt : g < r) (hone : 1 + r ≠ 0) :
    dcf_valuation ni cf ist r g =
      some ((∑ i in Finset.range ni.length,
              ni.getD i 0 * (cfLast / niLast) / (1 + r) ^ (i + 1)) +
            ni.getLast hne * (cfLast / niLast) * (1 + g) / (r - g) /
              (1 + r) ^ ni.length) :=
  dcf_valuation_eq_sum ni cf ist cfLast niLast r g hcf hni hniz hne
    (sub_ne_zero.mpr hgt.ne') hone

/-- Concrete instance of `C1_dcf_valuation_formula`: projections
`[200, 220, 242]`, ratio `300/300 = 1`, rates `10%` and `2%`, giving
enterprise value `31500/11`. -/
theorem C1_dcf_valuation_formula_witness :
    dcf_valuation [200, 220, 242] ⟨[300]⟩ ⟨[], [], [300], []⟩ (1/10) (1/50) =
      some (31500/11) := by
  have h := C1_dcf_valuation_formula [200, 220, 242] ⟨[300]⟩
    ⟨[], [], [300], []⟩ 300 300 (1/10) (1/50) rfl rfl (by norm_num)
    (by simp) (by norm_num) (by norm_num)
  rw [h]
  norm_num [Finset.sum_range_succ, List.getLast]

/-- Claim C2 (code bug): the source performs no validation of the rate
relationship.  At `discount_rate = 1/100 < terminal_growth_rate = 1/50` it
silently computes and returns a negative enterprise value (`-20000`) instead
of halting with a reported error. -/
theorem C2_no_validation_silent_negative_ev :
    dcf_valuation [200] ⟨[200]⟩ ⟨[], [], [200], []⟩ (1/100) (1/50) =
      some (-20000) ∧ (-20000 : ℚ) < 0 :=
  ⟨by norm_num [dcf_valuation, List.enum], by norm_num⟩

/-- Claim C3 (code bug): `dcf_valuation` is not a function of its declared
inputs alone — line 44 of the source reads the module-level global
`income_statement`.  With identical declared inputs
(`net_income_projections`, `cash_flow`, `discount_rate`,
`terminal_growth_rate`) but two different global income statements, the
returned enterprise values differ. -/
theorem C3_result_depends_on_global_income_statement :
    dcf_valuation [100] ⟨[100]⟩ ⟨[], [], [100], []⟩ (1/10) (1/50) ≠
      dcf_valuation [100] ⟨[100]⟩ ⟨[], [], [50], []⟩ (1/10) (1/50) := by
  norm_num [dcf_valuation, List.enum]

/-- Claim C5, amended: holding the projections, the FCF/NI ratio, and the
terminal growth rate fixed, and assuming additionally that the terminal
growth rate is above `-1` and that every projected free cash flow
`x * ratio` is strictly positive, the enterprise value strictly decreases in
the discount rate on the domain `discount_rate > terminal_growth_rate`. -/
theorem C5_ev_strictly_decreasing_in_discount_rate (ni : List ℚ)
    (cf : CashFlow) (ist : IncomeStatement) (cfLast niLast g r1 r2 : ℚ)
    (hcf : cf.free_cash_flow.getLast? = some cfLast)
    (hni : ist.net_income.getLast? = some niLast)
    (hniz : niLast ≠ 0) (hne : ni ≠ [])
    (hpos : ∀ x ∈ ni, 0 < x * (cfLast / niLast))
    (hg : -1 < g) (hgr1 : g < r1) (hr12 : r1 < r2) :
    ∃ v1 v2, dcf_valuation ni cf ist r1 g = some v1 ∧
      dcf_valuation ni cf ist r2 g = some v2 ∧ v2 < v1 := by
  have h1 : (1 : ℚ) + r1 ≠ 0 := by linarith
  have h2 : (1 : ℚ) + r2 ≠ 0 := by linarith
  refine ⟨_, _,
    dcf_valuation_eq_sum ni cf ist cfLast niLast r1 g hcf hni hniz hne
      (sub_ne_zero.mpr hgr1.ne') h1,
    dcf_valuation_eq_sum ni cf ist cfLast niLast r2 g hcf hni hniz hne
      (sub_ne_zero.mpr (show g < r2 by linarith).ne') h2, ?_⟩
  exact ev_sum_strict_anti ni (cfLast / niLast) g r1 r2 hne hpos hg hgr1 hr12

/-- Refutation of claim C5 as stated: with a negative projection
(`[-200]`, ratio `1`) and rates `2% < 10% < 20%`, the enterprise value at
the smaller rate (`-2500`) is NOT greater than at the larger rate
(`-10000/9`): the claimed strict decrease fails. -/
theorem C5_counterexample :
    (1 : ℚ)/50 < 1/10 ∧ (1 : ℚ)/10 < 1/5 ∧
    dcf_valuation [-200] ⟨[200]⟩ ⟨[], [], [200], []⟩ (1/10) (1/50) =
      some (-2500) ∧
    dcf_valuation [-200] ⟨[200]⟩ ⟨[], [], [200], []⟩ (1/5) (1/50) =
      some (-10000/9) ∧
    ¬ ((-2500 : ℚ) > -10000/9) :=
  ⟨by norm_num, by norm_num, by norm_num [dcf_valuation, List.enum],
    by norm_num [dcf_valuation, List.enum], by norm_num⟩

/-- Claim C10: on an empty discount-rate sequence `sensitivity_analysis`
fails (the source raises `IndexError` at `discount_rates[0]` while sizing
the terminal value) and produces no output pairs, whatever the other
inputs. -/
theorem C10_empty_rate_sequence_fails (ni : List ℚ) (cf : CashFlow)
    (ist : IncomeStatement) (g : ℚ) :
    sensitivity_analysis ni cf ist [] g = none := by
  cases hcf : cf.free_cash_flow.getLast? with
  | none => simp [sensitivity_analysis, hcf]
  | some cfLast =>
    cases hni : ist.net_income.getLast? with
    | none => simp [sensitivity_analysis, hcf, hni]
    | some niLast =>
      by_cases h : niLast = 0
      · simp [sensitivity_analysis, hcf, hni, h]
      · cases hlast : (ni.map fun x => x * (cfLast / niLast)).getLast? with
        | none => simp [sensitivity_analysis, hcf, hni, h, hlast]
        | some fcfLast => simp [sensitivity_analysis, hcf, hni, h, hlast]

/-- Concrete instance of `C5_ev_strictly_decreasing_in_discount_rate`:
positive projections `[200, 220, 242]` with ratio `1`, growth `2%`, rates
`10% < 20%`. -/
theorem C5_ev_strictly_decreasing_in_discount_rate_witness :
    ∃ v1 v2,
      dcf_valuation [200, 220, 242] ⟨[300]⟩ ⟨[], [], [300], []⟩ (1/10)
        (1/50) = some v1 ∧
      dcf_valuation [200, 220, 242] ⟨[300]⟩ ⟨[], [], [300], []⟩ (1/5)
        (1/50) = some v2 ∧ v2 < v1 :=
  C5_ev_strictly_decreasing_in_discount_rate [200, 220, 242] ⟨[300]⟩
    ⟨[], [], [300], []⟩ 300 300 (1/50) (1/10) (1/5) rfl rfl (by norm_num)
    (by simp) (by intro x hx; fin_cases hx <;> norm_num) (by norm_num)
    (by norm_num) (by norm_num)

/-- Claim C4: on a rate sequence with first element `r0` (no rate equal to
`-1`, which would raise), `sensitivity_analysis` returns one pair per rate in
order; the free-cash-flow projections and the terminal value are shared by
all pairs, the terminal-value denominator `r0 - g` using the FIRST rate only,
while each pair discounts both parts at its own rate. -/
theorem C4_terminal_value_fixed_at_first_rate (ni : List ℚ) (cf : CashFlow)
    (ist : IncomeStatement) (cfLast niLast r0 g : ℚ) (rates : List ℚ)
    (hcf : cf.free_cash_flow.getLast? = some cfLast)
    (hni : ist.net_income.getLast? = some niLast)
    (hniz : niLast ≠ 0) (hne : ni ≠ [])
    (hr0 : rates.head? = some r0) (hr0g : r0 - g ≠ 0)
    (hrates : ∀ r ∈ rates, 1 + r ≠ 0) :
    sensitivity_analysis ni cf ist rates g =
      some (rates.map fun rate =>
        (rate,
          (∑ i in Finset.range ni.length,
            ni.getD i 0 * (cfLast / niLast) / (1 + rate) ^ (i + 1)) +
          ni.getLast hne * (cfLast / niLast) * (1 + g) / (r0 - g) /
            (1 + rate) ^ ni.length)) :=
  sensitivity_analysis_eq_sum ni cf ist cfLast niLast r0 g rates hcf hni
    hniz hne hr0 hr0g hrates

/-- Concrete instance of `C4_terminal_value_fixed_at_first_rate`: rates
`[10%, 20%]`, projections `[200, 220, 242]`, ratio `1`, growth `2%`.  Both
enterprise values use the terminal value `6171/2` sized by the first rate;
the value at `20%` is therefore `969875/432`, not the `≈ 1253` a per-rate
terminal value would give. -/
theorem C4_terminal_value_fixed_at_first_rate_witness :
    sensitivity_analysis [200, 220, 242] ⟨[300]⟩ ⟨[], [], [300], []⟩
      [1/10, 1/5] (1/50) =
      some [(1/10, 31500/11), (1/5, 969875/432)] := by
  have h := C4_terminal_value_fixed_at_first_rate [200, 220, 242] ⟨[300]⟩
    ⟨[], [], [300], []⟩ 300 300 (1/10) (1/50) [1/10, 1/5] rfl rfl
    (by norm_num) (by simp) rfl (by norm_num)
    (by intro r hr; fin_cases hr <;> norm_num)
  rw [h]
  norm_num [Finset.sum_range_succ, List.getLast]

/-- Claim C7: whenever `sensitivity_analysis` returns a result, it contains
exactly one `(discount_rate, enterprise_value)` pair per input rate, and the
`i`-th output pair carries the `i`-th input rate. -/
theorem C7_one_pair_per_rate_in_input_order (ni : List ℚ) (cf : CashFlow)
    (ist : IncomeStatement) (cfLast niLast r0 g : ℚ) (rates : List ℚ)
    (hcf : cf.free_cash_flow.getLast? = some cfLast)
    (hni : ist.net_income.getLast? = some niLast)
    (hniz : niLast ≠ 0) (hne : ni ≠ [])
    (hr0 : rates.head? = some r0) (hr0g : r0 - g ≠ 0)
    (hrates : ∀ r ∈ rates, 1 + r ≠ 0) :
    ∃ out, sensitivity_analysis ni cf ist rates g = some out ∧
      out.length = rates.length ∧
      ∀ i, i < rates.length → (out.getD i (0, 0)).1 = rates.getD i 0 := by
  refine ⟨_, sensitivity_analysis_eq_sum ni cf ist cfLast niLast r0 g rates
    hcf hni hniz hne hr0 hr0g hrates, by simp, fun i hi => ?_⟩
  rw [getD_map_of_lt _ 0 (0, 0) rates i hi]

/-- Concrete instance of `C7_one_pair_per_rate_in_input_order` at the rates
`[10%, 20%]`. -/
theorem C7_one_pair_per_rate_in_input_order_witness :
    ∃ out, sensitivity_analysis [200, 220, 242] ⟨[300]⟩ ⟨[], [], [300], []⟩
      [1/10, 1/5] (1/50) = some out ∧
      out.length = ([1/10, 1/5] : List ℚ).length ∧
      ∀ i, i < ([1/10, 1/5] : List ℚ).length →
        (out.getD i (0, 0)).1 = ([1/10, 1/5] : List ℚ).getD i 0 :=
  C7_one_pair_per_rate_in_input_order [200, 220, 242] ⟨[300]⟩
    ⟨[], [], [300], []⟩ 300 300 (1/10) (1/50) [1/10, 1/5] rfl rfl
    (by norm_num) (by simp) rfl (by norm_num)
    (by intro r hr; fin_cases hr <;> norm_num)

/-- Claim C9: the first output pair of `sensitivity_analysis` is exactly
`(r0, dcf_valuation at r0)`: at the first rate the fixed-terminal-value quirk
is invisible, since the terminal value was sized with that very rate. -/
theorem C9_first_pair_agrees_with_dcf_valuation (ni : List ℚ)
    (cf : CashFlow) (ist : IncomeStatement) (cfLast niLast r0 g : ℚ)
    (rates : List ℚ)
    (hcf : cf.free_cash_flow.getLast? = some cfLast)
    (hni : ist.net_income.getLast? = some niLast)
    (hniz : niLast ≠ 0) (hne : ni ≠ [])
    (hr0 : rates.head? = some r0) (hr0g : r0 - g ≠ 0)
    (hrates : ∀ r ∈ rates, 1 + r ≠ 0) :
    ∃ v out, dcf_valuation ni cf ist r0 g = some v ∧
      sensitivity_analysis ni cf ist rates g = some out ∧
      out.head? = some (r0, v) := by
  have hmem : r0 ∈ rates := List.mem_of_mem_head? (by simp [hr0])
  refine ⟨_, _,
    dcf_valuation_eq_sum ni cf ist cfLast niLast r0 g hcf hni hniz hne hr0g
      (hrates r0 hmem),
    sensitivity_analysis_eq_sum ni cf ist cfLast niLast r0 g rates hcf hni
      hniz hne hr0 hr0g hrates, ?_⟩
  rw [List.head?_map, hr0]
  rfl

/-- Concrete instance of `C9_first_pair_agrees_with_dcf_valuation`: at rates
`[10%, 20%]` the first output pair carries the plain DCF value for `10%`. -/
theorem C9_first_pair_agrees_with_dcf_valuation_witness :
    ∃ v out,
      dcf_valuation [200, 220, 242] ⟨[300]⟩ ⟨[], [], [300], []⟩ (1/10)
        (1/50) = some v ∧
      sensitivity_analysis [200, 220, 242] ⟨[300]⟩ ⟨[], [], [300], []⟩
        [1/10, 1/5] (1/50) = some out ∧
      out.head? = some (1/10, v) :=
  C9_first_pair_agrees_with_dcf_valuation [200, 220, 242] ⟨[300]⟩
    ⟨[], [], [300], []⟩ 300 300 (1/10) (1/50) [1/10, 1/5] rfl rfl
    (by norm_num) (by simp) rfl (by norm_num)
    (by intro r hr; fin_cases hr <;> norm_num)

/-- Claim C6: for every base revenue (`Total Revenue[-1]`), every terminal
margin (`net_profit_margin[-1]`), every growth rate above `-1` and every
positive number of years, `project_financials` returns two sequences of
length `years` with `revenue i = initial_revenue * (1+growth_rate)^i` — so
`revenue 0` is exactly the ungrown base revenue — and
`net_income i = revenue i * margin`. -/
theorem C6_projection_formula (ist : IncomeStatement) (margin : List ℚ)
    (init m g : ℚ) (years : ℕ)
    (hrev : ist.total_revenue.getLast? = some init)
    (hm : margin.getLast? = some m)
    (hg : -1 < g) (hy : 1 ≤ years) :
    ∃ rev nis, project_financials ist margin g years = some (rev, nis) ∧
      rev.length = years ∧ nis.length = years ∧
      rev.getD 0 0 = init ∧
      (∀ i, i < years → rev.getD i 0 = init * (1 + g) ^ i) ∧
      (∀ i, i < years → nis.getD i 0 = rev.getD i 0 * m) := by
  have hlen : ((List.range years).map fun i => init * (1 + g) ^ i).length =
      years := by simp
  cases hrevs : (List.range years).map fun i => init * (1 + g) ^ i with
  | nil =>
    rw [hrevs] at hlen
    simp only [List.length_nil] at hlen
    omega
  | cons a t =>
    have hkey : ∀ i, i < years → (a :: t).getD i 0 = init * (1 + g) ^ i := by
      intro i hi
      rw [← hrevs,
        getD_map_of_lt (fun i => init * (1 + g) ^ i) 0 0 (List.range years) i
          (by simpa using hi),
        getD_range_of_lt years i hi]
    refine ⟨a :: t, (a :: t).map fun rev => rev * m, ?_, ?_, ?_, ?_, hkey,
      fun i hi => ?_⟩
    · simp only [project_financials, hrev, hrevs, hm]
    · rw [← hrevs]; exact hlen
    · rw [List.length_map, ← hrevs]; exact hlen
    · rw [hkey 0 (by omega), pow_zero, mul_one]
    · rw [getD_map_of_lt (fun rev => rev * m) 0 0 (a :: t) i
        (by rw [← hrevs]; omega)]

/-- Concrete instance of `C6_projection_formula`: base revenue `1000`,
margin `1/5`, growth `10%`, three years. -/
theorem C6_projection_formula_witness :
    ∃ rev nis,
      project_financials ⟨[], [], [], [800, 1000]⟩ [3/10, 1/5] (1/10) 3 =
        some (rev, nis) ∧
      rev.length = 3 ∧ nis.length = 3 ∧
      rev.getD 0 0 = 1000 ∧
      (∀ i, i < 3 → rev.getD i 0 = 1000 * (1 + 1/10) ^ i) ∧
      (∀ i, i < 3 → nis.getD i 0 = rev.getD i 0 * (1/5)) :=
  C6_projection_formula ⟨[], [], [], [800, 1000]⟩ [3/10, 1/5] 1000 (1/5)
    (1/10) 3 rfl rfl (by norm_num) (by norm_num)

/-- Claim C8: `calculate_ratios` returns exactly the four ratio series,
computed element-wise per period as Gross Profit / Total Revenue,
Operating Income / Total Revenue, Net Income / Total Revenue and
Total Liabilities / Total Stockholder Equity; whenever the denominator of a
period is non-zero the ratio is a well-defined (finite) value, recovering
the numerator when multiplied back by the denominator. -/
theorem C8_ratio_series_elementwise (ist : IncomeStatement)
    (bs : BalanceSheet) (i : ℕ)
    (h1 : i < ist.gross_profit.length) (h2 : i < ist.operating_income.length)
    (h3 : i < ist.net_income.length) (h4 : i < ist.total_revenue.length)
    (h5 : i < bs.total_liabilities.length)
    (h6 : i < bs.total_stockholder_equity.length) :
    ((calculate_ratios ist bs).gross_margin.getD i 0 =
        ist.gross_profit.getD i 0 / ist.total_revenue.getD i 0 ∧
      (calculate_ratios ist bs).operating_margin.getD i 0 =
        ist.operating_income.getD i 0 / ist.total_revenue.getD i 0 ∧
      (calculate_ratios ist bs).net_profit_margin.getD i 0 =
        ist.net_income.getD i 0 / ist.total_revenue.getD i 0 ∧
      (calculate_ratios ist bs).debt_to_equity.getD i 0 =
        bs.total_liabilities.getD i 0 /
          bs.total_stockholder_equity.getD i 0) ∧
    (ist.total_revenue.getD i 0 ≠ 0 →
      (calculate_ratios ist bs).gross_margin.getD i 0 *
          ist.total_revenue.getD i 0 = ist.gross_profit.getD i 0 ∧
      (calculate_ratios ist bs).operating_margin.getD i 0 *
          ist.total_revenue.getD i 0 = ist.operating_income.getD i 0 ∧
      (calculate_ratios ist bs).net_profit_margin.getD i 0 *
          ist.total_revenue.getD i 0 = ist.net_income.getD i 0) ∧
    (bs.total_stockholder_equity.getD i 0 ≠ 0 →
      (calculate_ratios ist bs).debt_to_equity.getD i 0 *
          bs.total_stockholder_equity.getD i 0 =
        bs.total_liabilities.getD i 0) := by
  have e1 : (calculate_ratios ist bs).gross_margin.getD i 0 =
      ist.gross_profit.getD i 0 / ist.total_revenue.getD i 0 :=
    getD_zipWith_of_lt (fun a b => a / b) _ _ i h1 h4
  have e2 : (calculate_ratios ist bs).operating_margin.getD i 0 =
      ist.operating_income.getD i 0 / ist.total_revenue.getD i 0 :=
    getD_zipWith_of_lt (fun a b => a / b) _ _ i h2 h4
  have e3 : (calculate_ratios ist bs).net_profit_margin.getD i 0 =
      ist.net_income.getD i 0 / ist.total_revenue.getD i 0 :=
    getD_zipWith_of_lt (fun a b => a / b) _ _ i h3 h4
  have e4 : (calculate_ratios ist bs).debt_to_equity.getD i 0 =
      bs.total_liabilities.getD i 0 /
        bs.total_stockholder_equity.getD i 0 :=
    getD_zipWith_of_lt (fun a b => a / b) _ _ i h5 h6
  refine ⟨⟨e1, e2, e3, e4⟩, fun hz => ⟨?_, ?_, ?_⟩, fun hz => ?_⟩
  · rw [e1]; exact div_mul_cancel₀ _ hz
  · rw [e2]; exact div_mul_cancel₀ _ hz
  · rw [e3]; exact div_mul_cancel₀ _ hz
  · rw [e4]; exact div_mul_cancel₀ _ hz

/-- Concrete instance of `C8_ratio_series_elementwise`: a one-period pair of
statements with revenue `100`, gross profit `40`, operating income `25`,
net income `20`, liabilities `150`, equity `75`. -/
theorem C8_ratio_series_elementwise_witness :
    ((calculate_ratios ⟨[40], [25], [20], [100]⟩
        ⟨[150], [75]⟩).gross_margin.getD 0 0 =
        ([40] : List ℚ).getD 0 0 / ([100] : List ℚ).getD 0 0 ∧
      (calculate_ratios ⟨[40], [25], [20], [100]⟩
        ⟨[150], [75]⟩).operating_margin.getD 0 0 =
        ([25] : List ℚ).getD 0 0 / ([100] : List ℚ).getD 0 0 ∧
      (calculate_ratios ⟨[40], [25], [20], [100]⟩
        ⟨[150], [75]⟩).net_profit_margin.getD 0 0 =
        ([20] : List ℚ).getD 0 0 / ([100] : List ℚ).getD 0 0 ∧
      (calculate_ratios ⟨[40], [25], [20], [100]⟩
        ⟨[150], [75]⟩).debt_to_equity.getD 0 0 =
        ([150] : List ℚ).getD 0 0 / ([75] : List ℚ).getD 0 0) ∧
    (([100] : List ℚ).getD 0 0 ≠ 0 →
      (calculate_ratios ⟨[40], [25], [20], [100]⟩
          ⟨[150], [75]⟩).gross_margin.getD 0 0 *
          ([100] : List ℚ).getD 0 0 = ([40] : List ℚ).getD 0 0 ∧
      (calculate_ratios ⟨[40], [25], [20], [100]⟩
          ⟨[150], [75]⟩).operating_margin.getD 0 0 *
          ([100] : List ℚ).getD 0 0 = ([25] : List ℚ).getD 0 0 ∧
      (calculate_ratios ⟨[40], [25], [20], [100]⟩
          ⟨[150], [75]⟩).net_profit_margin.getD 0 0 *
          ([100] : List ℚ).getD 0 0 = ([20] : List ℚ).getD 0 0) ∧
    (([75] : List ℚ).getD 0 0 ≠ 0 →
      (calculate_ratios ⟨[40], [25], [20], [100]⟩
          ⟨[150], [75]⟩).debt_to_equity.getD 0 0 *
          ([75] : List ℚ).getD 0 0 = ([150] : List ℚ).getD 0 0) :=
  C8_ratio_series_elementwise ⟨[40], [25], [20], [100]⟩ ⟨[150], [75]⟩ 0
    (by norm_num) (by norm_num) (by norm_num) (by norm_num) (by norm_num)
    (by norm_num)

end Financial
